import Mathlib

/-!
# Room list widget (`web_app/script.js`)

A shallow embedding of the single script of the repository: the object `app`
with its fields `rooms` and `userId` and its three functions `init`,
`fetchRooms` and `renderRooms`, together with the part of the browser the
script talks to (the host context of the messenger, `fetch`, `console`,
`alert` and the element with identifier `rooms`).

The script is sequential: every `await` is modelled as plain sequencing, the
result of the network call is an input of the model, and every call of a host
function is recorded in a trace.
-/

namespace RoomListWidget

/-! ## Values -/

/-- Values of the language that the script can hold: `undefined` and the
values of parsed structured data.  `num` carries an integer-valued number (the
script performs no arithmetic; it only compares a length with `0`), `obj`
carries the own properties of a plain object. -/
inductive JSVal where
  | undefined : JSVal
  | null : JSVal
  | bool (b : Bool) : JSVal
  | num (n : Int) : JSVal
  | str (s : String) : JSVal
  | arr (items : List JSVal) : JSVal
  | obj (fields : List (String × JSVal)) : JSVal

/-- Errors that can be raised while the script runs. -/
inductive JSError where
  /-- An error made with `new Error(message)`, raised by the script itself. -/
  | error (message : String) : JSError
  /-- A `TypeError` raised by the language or by `fetch`. -/
  | typeError (message : String) : JSError
  /-- The body of a response is not well-formed structured data. -/
  | malformedBody (message : String) : JSError
  deriving DecidableEq, Repr

/-- Truthiness of a value, as tested by `if` and `&&`. -/
def truthy : JSVal → Bool
  | .undefined => false
  | .null => false
  | .bool b => b
  | .num n => n != 0
  | .str s => s != ""
  | .arr _ => true
  | .obj _ => true

/-- Own property lookup in a plain object; an absent property reads as
`undefined`. -/
def lookup (key : String) : List (String × JSVal) → JSVal
  | [] => .undefined
  | (k, v) :: rest => if k = key then v else lookup key rest

/-- Number of UTF-16 code units of a string, the `length` of a string value. -/
def utf16Length (s : String) : Nat :=
  (s.toList.map (fun c => if c.toNat < 65536 then 1 else 2)).sum

/-- Property read `v.key`, for the property names the script reads (`user`,
`id`, `rooms`, `name`, `length`): reading from `undefined` or `null` raises a
`TypeError`; a plain object yields its own property; arrays and strings have a
`length`; every other read yields `undefined`. -/
def getProp (v : JSVal) (key : String) : Except JSError JSVal :=
  match v with
  | .undefined =>
    .error (.typeError ("Cannot read properties of undefined (reading " ++ key ++ ")"))
  | .null =>
    .error (.typeError ("Cannot read properties of null (reading " ++ key ++ ")"))
  | .obj fields => .ok (lookup key fields)
  | .arr items => .ok (if key = "length" then .num items.length else .undefined)
  | .str s => .ok (if key = "length" then .num (utf16Length s) else .undefined)
  | .bool _ => .ok .undefined
  | .num _ => .ok .undefined

/-- Strict equality with the number zero, `v === 0`. -/
def isZero : JSVal → Bool
  | .num n => n == 0
  | _ => false

mutual
/-- Conversion of a value to a string (`ToString`). -/
def toStr : JSVal → String
  | .undefined => "undefined"
  | .null => "null"
  | .bool b => if b then "true" else "false"
  | .num n => toString n
  | .str s => s
  | .arr items => joinItems items
  | .obj _ => "[object Object]"
/-- Elements of an array joined with commas, `undefined` and `null` elements
contributing the empty string. -/
def joinItems : List JSVal → String
  | [] => ""
  | [x] => itemStr x
  | x :: y :: rest => itemStr x ++ "," ++ joinItems (y :: rest)
/-- String of one array element inside a join. -/
def itemStr : JSVal → String
  | .undefined => ""
  | .null => ""
  | .bool b => if b then "true" else "false"
  | .num n => toString n
  | .str s => s
  | .arr items => joinItems items
  | .obj _ => "[object Object]"
end

/-- Conversion of a value assigned to `textContent`, a nullable string:
`undefined` and `null` act as the empty string, every other value is converted
with `toStr`. -/
def toTextContent : JSVal → String
  | .undefined => ""
  | .null => ""
  | v => toStr v

/-! ## Document -/

/-- Nodes below an element: text nodes and elements with a tag name, the
tokens of their `classList` and their children. -/
inductive Node where
  | text (data : String) : Node
  | element (tag : String) (classList : List String) (children : List Node) : Node

/-- An element of the document. -/
structure Element where
  tag : String
  classList : List String
  children : List Node

/-- An element seen as a node. -/
def Element.toNode (e : Element) : Node := .element e.tag e.classList e.children

/-- Whether a node is an element. -/
def Node.isElement : Node → Bool
  | .text _ => false
  | .element _ _ _ => true

/-- Class tokens of a node; a text node has none. -/
def Node.classes : Node → List String
  | .text _ => []
  | .element _ cs _ => cs

mutual
/-- Descendant text content of a node: the data of its text descendants in tree
order (the getter of `textContent`). -/
def Node.textContent : Node → String
  | .text d => d
  | .element _ _ cs => textOfNodes cs
/-- Concatenated text content of a list of sibling nodes. -/
def textOfNodes : List Node → String
  | [] => ""
  | c :: cs => c.textContent ++ textOfNodes cs
end

/-- Getter of `textContent` on an element. -/
def Element.textContent (e : Element) : String := textOfNodes e.children

/-- Child elements of an element (`children` in the document interface). -/
def Element.childElements (e : Element) : List Node := e.children.filter Node.isElement

/-- Number of child elements (`childElementCount`). -/
def Element.childElementCount (e : Element) : Nat := e.childElements.length

/-- Result of `document.createElement(tag)`: an element with no class and no child. -/
def createElement (tag : String) : Element := { tag := tag, classList := [], children := [] }

/-- Effect of `e.classList.add(token)`: the token is added unless present. -/
def Element.classListAdd (e : Element) (token : String) : Element :=
  if token ∈ e.classList then e else { e with classList := e.classList ++ [token] }

/-- Effect of `e.innerHTML = ''`: all children are removed. -/
def Element.clearInnerHTML (e : Element) : Element := { e with children := [] }

/-- Effect of `e.textContent = s`: all children are replaced by one text node
holding `s`, or by nothing when `s` is empty. -/
def Element.setTextContent (e : Element) (s : String) : Element :=
  { e with children := if s = "" then [] else [.text s] }

/-- Effect of `e.appendChild(c)`. -/
def Element.appendChild (e : Element) (c : Element) : Element :=
  { e with children := e.children ++ [c.toNode] }

/-! ## Host environment and state -/

/-- Calls of host functions, in the order the script makes them. -/
inductive Event where
  /-- Call of `Telegram.WebApp.ready()`. -/
  | ready : Event
  /-- Call of `console.log(message, value)`. -/
  | consoleLog (message : String) (value : JSVal) : Event
  /-- Call of `console.warn(message)`. -/
  | consoleWarn (message : String) : Event
  /-- Call of `console.error(message, error)`. -/
  | consoleError (message : String) (error : JSError) : Event
  /-- Call of `alert(message)`. -/
  | alert (message : String) : Event
  /-- Call of `fetch(path)`: a GET request to `path`. -/
  | fetch (path : String) : Event
  /-- Call of `response.json()`: the body of the response is read and parsed. -/
  | json : Event

/-- Whether an event is an alert. -/
def Event.isAlert : Event → Bool
  | .alert _ => true
  | _ => false

/-- Whether an event is a diagnostic error log. -/
def Event.isConsoleError : Event → Bool
  | .consoleError _ _ => true
  | _ => false

/-- Whether an event is a request. -/
def Event.isFetch : Event → Bool
  | .fetch _ => true
  | _ => false

/-- Whether an event is the parsing of a response body. -/
def Event.isJson : Event → Bool
  | .json => true
  | _ => false

/-- Number of alerts shown in a trace. -/
def alertCount (t : List Event) : Nat := (t.filter Event.isAlert).length

/-- Number of diagnostic errors logged in a trace. -/
def errorLogCount (t : List Event) : Nat := (t.filter Event.isConsoleError).length

/-- Number of requests issued in a trace. -/
def fetchCount (t : List Event) : Nat := (t.filter Event.isFetch).length

/-- Number of response bodies parsed in a trace. -/
def jsonCount (t : List Event) : Nat := (t.filter Event.isJson).length

/-- A response of the backend: its status code and the result of reading its
body as structured data (`response.json()`), which fails on a malformed body. -/
structure Response where
  status : Nat
  body : Except JSError JSVal

/-- The `ok` flag of a response: the status is in the range 200 to 299. -/
def Response.ok (r : Response) : Bool := decide (200 ≤ r.status) && decide (r.status ≤ 299)

/-- Result of the network call: the request is rejected (it could not be
completed) or it resolves to a response. -/
inductive FetchResult where
  | rejected (reason : JSError) : FetchResult
  | resolved (response : Response) : FetchResult

/-- State of the page: the two fields of `app`, the element with identifier
`rooms` (if the page has one) and the trace of host calls made so far. -/
structure World where
  /-- Field `app.rooms`. -/
  rooms : JSVal
  /-- Field `app.userId`. -/
  userId : JSVal
  /-- Result of `document.getElementById('rooms')`. -/
  roomsDiv : Option Element
  /-- Host calls made so far, oldest first. -/
  trace : List Event

/-- A host call is appended to the trace. -/
def World.record (w : World) (e : Event) : World := { w with trace := w.trace ++ [e] }

/-- How a function of the script ends: normally, or with a raised error; the
state reached is kept in both cases. -/
inductive Completion where
  | normal (w : World) : Completion
  | thrown (w : World) (error : JSError) : Completion

/-- State in which a function ended. -/
def Completion.world : Completion → World
  | .normal w => w
  | .thrown w _ => w

/-- Whether a function ended without raising. -/
def Completion.isNormal : Completion → Bool
  | .normal _ => true
  | .thrown _ _ => false

/-! ## The script -/

/-- Message of the alert shown when the retrieval of the rooms fails. -/
def alertMessage : String :=
  "Ошибка при получении списка комнат. Проверьте консоль для подробностей."

/-- Text shown in the container when there is no room. -/
def emptyMessage : String := "Нет доступных комнат."

/-- The `try` block of `fetchRooms`. -/
def fetchRoomsTry (net : FetchResult) (w : World) : Completion :=
  let w := w.record (.fetch "/api/rooms")
  match net with
  | .rejected reason => .thrown w reason
  | .resolved response =>
    if !response.ok then
      .thrown w (.error ("Ошибка HTTP! Статус: " ++ toString response.status))
    else
      let w := w.record .json
      match response.body with
      | .error e => .thrown w e
      | .ok data =>
        match getProp data "rooms" with
        | .error e => .thrown w e
        | .ok rooms => .normal { w with rooms := rooms }

/-- The function `app.fetchRooms`: the `try` block, and the `catch` handler
that logs the error and shows an alert. -/
def fetchRooms (net : FetchResult) (w : World) : Completion :=
  match fetchRoomsTry net w with
  | .normal w => .normal w
  | .thrown w error =>
    let w := w.record (.consoleError "Ошибка при получении списка комнат:" error)
    let w := w.record (.alert alertMessage)
    .normal w

/-- One call of the callback passed to `forEach` in `renderRooms`: a `div` is
created, receives the class `room` and the name of the room as text, and is
appended to the container. -/
def appendRoom (room : JSVal) (roomsDiv : Element) : Except JSError Element :=
  let roomDiv := createElement "div"
  let roomDiv := roomDiv.classListAdd "room"
  match getProp room "name" with
  | .error e => .error e
  | .ok name =>
    let roomDiv := roomDiv.setTextContent (toTextContent name)
    .ok (roomsDiv.appendChild roomDiv)

/-- The loop `this.rooms.forEach(...)` over the elements of an array: the
container after the loop, and the error that stopped the loop, if any. -/
def forEachRoom : List JSVal → Element → Element × Option JSError
  | [], roomsDiv => (roomsDiv, none)
  | room :: rest, roomsDiv =>
    match appendRoom room roomsDiv with
    | .error e => (roomsDiv, some e)
    | .ok roomsDiv => forEachRoom rest roomsDiv

/-- The function `app.renderRooms`. -/
def renderRooms (w : World) : Completion :=
  match w.roomsDiv with
  | none => .thrown w (.typeError "Cannot set properties of null (setting innerHTML)")
  | some roomsDiv =>
    let roomsDiv := roomsDiv.clearInnerHTML
    match getProp w.rooms "length" with
    | .error e => .thrown { w with roomsDiv := some roomsDiv } e
    | .ok length =>
      if isZero length then
        .normal { w with roomsDiv := some (roomsDiv.setTextContent emptyMessage) }
      else
        match w.rooms with
        | .arr items =>
          match forEachRoom items roomsDiv with
          | (roomsDiv, none) => .normal { w with roomsDiv := some roomsDiv }
          | (roomsDiv, some e) => .thrown { w with roomsDiv := some roomsDiv } e
        | _ =>
          .thrown { w with roomsDiv := some roomsDiv }
            (.typeError "this.rooms.forEach is not a function")

/-- Value of `Telegram.WebApp.initDataUnsafe && Telegram.WebApp.initDataUnsafe.user`,
where `host` is the value of `Telegram.WebApp.initDataUnsafe`. -/
def hostUser (host : JSVal) : Except JSError JSVal :=
  if truthy host then getProp host "user" else .ok host

/-- The first statement of `app.init`: the identity of the user is taken from
the host context, or set to `unknown`. -/
def resolveUserId (host : JSVal) (w : World) : Completion :=
  match hostUser host with
  | .error e => .thrown w e
  | .ok c =>
    if truthy c then
      match getProp host "user" with
      | .error e => .thrown w e
      | .ok user =>
        match getProp user "id" with
        | .error e => .thrown w e
        | .ok id =>
          .normal (({ w with userId := id }).record (.consoleLog "ID пользователя:" id))
    else
      .normal (({ w with userId := .str "unknown" }).record
        (.consoleWarn "ID пользователя недоступен. Проверьте настройки Telegram Web App SDK."))

/-- The function `app.init`: identity, then `fetchRooms`, then `renderRooms`. -/
def init (host : JSVal) (net : FetchResult) (w : World) : Completion :=
  match resolveUserId host w with
  | .thrown w e => .thrown w e
  | .normal w =>
    match fetchRooms net w with
    | .thrown w e => .thrown w e
    | .normal w => renderRooms w

/-- State of the page when the script starts: `rooms: []`, `userId: null`,
the given container, and an empty trace. -/
def initialWorld (roomsDiv : Option Element) : World :=
  { rooms := .arr [], userId := .null, roomsDiv := roomsDiv, trace := [] }

/-- The whole script: `Telegram.WebApp.ready()`, then `app.init()` on the
initial state. -/
def main (host : JSVal) (net : FetchResult) (roomsDiv : Option Element) : Completion :=
  init host net ((initialWorld roomsDiv).record .ready)

/-! ## Kinds of network outcome -/

/-- The four outcomes of the network call: the request is rejected, the
response has a non-success status, the body of a successful response fails to
parse, or the response is successful and its body parses. -/
inductive OutcomeKind where
  | rejected : OutcomeKind
  | nonSuccessStatus : OutcomeKind
  | bodyFails : OutcomeKind
  | success : OutcomeKind
  deriving DecidableEq, Repr

/-- Kind of a result of the network call. -/
def outcomeKind : FetchResult → OutcomeKind
  | .rejected _ => .rejected
  | .resolved r =>
    if !r.ok then .nonSuccessStatus
    else
      match r.body with
      | .error _ => .bodyFails
      | .ok _ => .success

/-- Whether a value is `undefined` or `null`. -/
def isNullish : JSVal → Bool
  | .undefined => true
  | .null => true
  | _ => false

/-- Whether the body of a resolved response parses to `undefined` or `null`. -/
def bodyIsNullish : FetchResult → Bool
  | .rejected _ => false
  | .resolved r =>
    match r.body with
    | .error _ => false
    | .ok data => isNullish data

/-! ## Auxiliary definitions -/

/-- The `div` that `renderRooms` builds for a room whose `name` reads as `name`. -/
def roomDivOf (name : JSVal) : Element :=
  ((createElement "div").classListAdd "room").setTextContent (toTextContent name)

/-- Value read from `room.name`, `undefined` when the read raises. -/
def nameOf (room : JSVal) : JSVal :=
  match getProp room "name" with
  | .ok name => name
  | .error _ => .undefined

/-- Children that `renderRooms` gives to the container, and the error it
raises, if any, for a value of `app.rooms`. -/
def renderedNodes (rooms : JSVal) : List Node × Option JSError :=
  match getProp rooms "length" with
  | .error e => ([], some e)
  | .ok length =>
    if isZero length then ([.text emptyMessage], none)
    else
      match rooms with
      | .arr items =>
        ((forEachRoom items (createElement "div")).1.children,
          (forEachRoom items (createElement "div")).2)
      | _ => ([], some (.typeError "this.rooms.forEach is not a function"))

/-- The state and completion of `renderRooms` for given new children of the
container and a possible error. -/
def finishRender (w : World) (d : Element) (r : List Node × Option JSError) : Completion :=
  match r.2 with
  | none => .normal { w with roomsDiv := some { d with children := r.1 } }
  | some e => .thrown { w with roomsDiv := some { d with children := r.1 } } e

/-! ## Concrete inputs -/

/-- A room object whose only field is `name`, holding the string `n`. -/
def roomNamed (n : String) : JSVal := .obj [("name", .str n)]

/-- A container that already shows two rooms from an earlier render. -/
def staleDiv : Element :=
  { tag := "div", classList := ["list"],
    children := [.element "div" ["room"] [.text "Old"], .element "div" ["room"] [.text "Older"]] }

/-- A state whose room sequence is `Lobby`, `VIP`, over a stale container. -/
def lobbyWorld : World :=
  { rooms := .arr [roomNamed "Lobby", roomNamed "VIP"], userId := .num 12345,
    roomsDiv := some staleDiv, trace := [.ready] }

/-- A state whose room sequence is empty, over a stale container. -/
def noRoomWorld : World :=
  { rooms := .arr [], userId := .str "unknown", roomsDiv := some staleDiv, trace := [.ready] }

/-- A response with status 500. -/
def serverError : Response := { status := 500, body := .error (.malformedBody "unread") }

/-- A successful response whose body is an object with the rooms `Lobby`, `VIP`. -/
def lobbyResponse : Response :=
  { status := 200, body := .ok (.obj [("rooms", .arr [roomNamed "Lobby", roomNamed "VIP"])]) }

/-- A successful response whose body parses to `null`. -/
def nullResponse : Response := { status := 200, body := .ok .null }

/-- A host context with the user `12345`. -/
def hostWithUser : JSVal := .obj [("user", .obj [("id", .num 12345)])]

/-- A host context without a `user` field. -/
def hostNoUser : JSVal := .obj []

/-- A successful response whose body is an object without a `rooms` property. -/
def noRoomsFieldResponse : Response := { status := 200, body := .ok (.obj [("ok", .bool true)]) }

/-! ## Auxiliary facts -/

theorem appendRoom_ok (room name : JSVal) (d : Element)
    (h : getProp room "name" = .ok name) :
    appendRoom room d = .ok (d.appendChild (roomDivOf name)) := by
  simp [appendRoom, h, roomDivOf]

theorem appendRoom_error (room : JSVal) (e : JSError) (d : Element)
    (h : getProp room "name" = .error e) :
    appendRoom room d = .error e := by
  simp [appendRoom, h]

theorem roomDivOf_isElement (name : JSVal) : (roomDivOf name).toNode.isElement = true := rfl

theorem roomDivOf_classes (name : JSVal) : (roomDivOf name).toNode.classes = ["room"] := by
  simp [roomDivOf, Element.toNode, Node.classes, Element.setTextContent,
    Element.classListAdd, createElement]

theorem roomDivOf_textContent (name : JSVal) :
    (roomDivOf name).toNode.textContent = toTextContent name := by
  by_cases h : toTextContent name = ""
  · simp [roomDivOf, Element.toNode, Element.setTextContent, Node.textContent, textOfNodes, h]
  · simp [roomDivOf, Element.toNode, Element.setTextContent, Node.textContent, textOfNodes, h]

/-- When every `name` can be read, the loop appends one `div` per room, in
order, and does not raise. -/
theorem forEachRoom_all_ok (rooms : List JSVal) (d : Element)
    (h : ∀ r ∈ rooms, ∃ n, getProp r "name" = .ok n) :
    forEachRoom rooms d =
      ({ d with children := d.children ++ rooms.map (fun r => (roomDivOf (nameOf r)).toNode) },
        none) := by
  induction rooms generalizing d with
  | nil => simp [forEachRoom]
  | cons r rest ih =>
    obtain ⟨n, hn⟩ := h r (List.mem_cons_self r rest)
    have hrest : ∀ x ∈ rest, ∃ n, getProp x "name" = .ok n :=
      fun x hx => h x (List.mem_cons_of_mem r hx)
    have hname : nameOf r = n := by simp [nameOf, hn]
    rw [forEachRoom, appendRoom_ok r n d hn]
    simp only [ih _ hrest, Element.appendChild, List.map_cons, hname, List.append_assoc,
      List.singleton_append]

/-! ## Rendering -/

/-- C1: for a non-empty sequence of N rooms with string names in `app.rooms` and any
prior content of the container, `renderRooms` ends normally and leaves the
container with exactly N children, all of them elements, the i-th one carrying
exactly the class `room` and having as text the name of the i-th room. -/
theorem renderRooms_lists_rooms (w : World) (d : Element) (rooms : List JSVal)
    (hdiv : w.roomsDiv = some d) (hrooms : w.rooms = .arr rooms) (hne : rooms ≠ [])
    (hnames : ∀ r ∈ rooms, ∃ s, getProp r "name" = .ok (.str s)) :
    ∃ d', renderRooms w = .normal { w with roomsDiv := some d' } ∧
      d'.children.length = rooms.length ∧
      d'.childElementCount = rooms.length ∧
      ∀ i (hi : i < rooms.length), ∃ c, d'.children[i]? = some c ∧
        c.isElement = true ∧ c.classes = ["room"] ∧
        getProp rooms[i] "name" = .ok (.str c.textContent) := by
  have hok : ∀ r ∈ rooms, ∃ n, getProp r "name" = .ok n := fun r hr => by
    obtain ⟨s, hs⟩ := hnames r hr
    exact ⟨_, hs⟩
  have hlen : ¬ rooms.length = 0 := fun h0 => hne (List.length_eq_zero.mp h0)
  refine ⟨{ d.clearInnerHTML with
    children := rooms.map (fun r => (roomDivOf (nameOf r)).toNode) }, ?_, ?_, ?_, ?_⟩
  · have hloop := forEachRoom_all_ok rooms d.clearInnerHTML hok
    simp only [Element.clearInnerHTML, List.nil_append] at hloop
    simp [renderRooms, hdiv, hrooms, getProp, isZero, hlen, Element.clearInnerHTML, hloop]
  · simp
  · simp only [Element.childElementCount, Element.childElements]
    rw [List.filter_eq_self.mpr]
    · simp
    · intro c hc
      obtain ⟨r, _, rfl⟩ := List.mem_map.mp hc
      exact roomDivOf_isElement _
  · intro i hi
    refine ⟨(roomDivOf (nameOf rooms[i])).toNode, ?_, roomDivOf_isElement _,
      roomDivOf_classes _, ?_⟩
    · simp [List.getElem?_map, List.getElem?_eq_getElem hi]
    · obtain ⟨s, hs⟩ := hnames rooms[i] (List.getElem_mem hi)
      rw [roomDivOf_textContent, hs]
      simp [nameOf, hs, toTextContent, toStr]

/-- The rooms `Lobby` and `VIP` rendered over a stale container. -/
theorem renderRooms_lists_rooms_witness :
    ∃ d', renderRooms lobbyWorld = .normal { lobbyWorld with roomsDiv := some d' } ∧
      d'.children.length = 2 ∧
      d'.childElementCount = 2 ∧
      ∀ i (hi : i < [roomNamed "Lobby", roomNamed "VIP"].length),
        ∃ c, d'.children[i]? = some c ∧ c.isElement = true ∧ c.classes = ["room"] ∧
          getProp [roomNamed "Lobby", roomNamed "VIP"][i] "name" = .ok (.str c.textContent) :=
  renderRooms_lists_rooms lobbyWorld staleDiv [roomNamed "Lobby", roomNamed "VIP"] rfl rfl
    (by simp)
    (by
      intro r hr
      simp only [List.mem_cons, List.mem_singleton, List.not_mem_nil, or_false] at hr
      rcases hr with rfl | rfl
      · exact ⟨"Lobby", rfl⟩
      · exact ⟨"VIP", rfl⟩)

/-- C2: when `app.rooms` is the empty sequence, whatever the container held,
`renderRooms` ends normally and leaves the container with the empty-state
message as its text and with no child element. -/
theorem renderRooms_empty (w : World) (d : Element)
    (hdiv : w.roomsDiv = some d) (hrooms : w.rooms = .arr []) :
    ∃ d', renderRooms w = .normal { w with roomsDiv := some d' } ∧
      d'.textContent = "Нет доступных комнат." ∧
      d'.childElementCount = 0 ∧
      d'.children = [.text "Нет доступных комнат."] := by
  refine ⟨(d.clearInnerHTML).setTextContent emptyMessage, ?_, ?_, ?_, ?_⟩
  · simp [renderRooms, hdiv, hrooms, getProp, isZero]
  · simp [Element.textContent, Element.setTextContent, emptyMessage, textOfNodes,
      Node.textContent]
  · simp [Element.childElementCount, Element.childElements, Element.setTextContent,
      emptyMessage, Node.isElement]
  · simp [Element.setTextContent, emptyMessage]

/-- The empty sequence rendered over a stale container. -/
theorem renderRooms_empty_witness :
    ∃ d', renderRooms noRoomWorld = .normal { noRoomWorld with roomsDiv := some d' } ∧
      d'.textContent = "Нет доступных комнат." ∧
      d'.childElementCount = 0 ∧
      d'.children = [.text "Нет доступных комнат."] :=
  renderRooms_empty noRoomWorld staleDiv rfl rfl

/-! ## Fetching -/

theorem getProp_of_not_nullish (v : JSVal) (key : String) (h : isNullish v = false) :
    ∃ x, getProp v key = .ok x := by
  cases v <;> simp [getProp, isNullish] at h ⊢

theorem getProp_of_nullish (v : JSVal) (key : String) (h : isNullish v = true) :
    ∃ e, getProp v key = .error e := by
  cases v <;> simp [getProp, isNullish] at h ⊢

theorem alertCount_append (t u : List Event) :
    alertCount (t ++ u) = alertCount t + alertCount u := by
  simp [alertCount]

theorem errorLogCount_append (t u : List Event) :
    errorLogCount (t ++ u) = errorLogCount t + errorLogCount u := by
  simp [errorLogCount]

theorem fetchCount_append (t u : List Event) :
    fetchCount (t ++ u) = fetchCount t + fetchCount u := by
  simp [fetchCount]

theorem jsonCount_append (t u : List Event) :
    jsonCount (t ++ u) = jsonCount t + jsonCount u := by
  simp [jsonCount]

/-- C3: for every prior state and every response whose `ok` flag is false,
`fetchRooms` ends normally, leaves `app.rooms` as it was, shows exactly one
alert, and does not parse the body: it only issues the request, logs the error
made from the status and shows the alert. -/
theorem fetchRooms_non_ok (w : World) (r : Response) (h : r.ok = false) :
    fetchRooms (.resolved r) w =
      .normal { w with trace := w.trace ++
        [.fetch "/api/rooms",
         .consoleError "Ошибка при получении списка комнат:"
           (.error ("Ошибка HTTP! Статус: " ++ toString r.status)),
         .alert alertMessage] } ∧
    (fetchRooms (.resolved r) w).world.rooms = w.rooms ∧
    alertCount (fetchRooms (.resolved r) w).world.trace = alertCount w.trace + 1 ∧
    jsonCount (fetchRooms (.resolved r) w).world.trace = jsonCount w.trace := by
  have heq : fetchRooms (.resolved r) w =
      .normal { w with trace := w.trace ++
        [.fetch "/api/rooms",
         .consoleError "Ошибка при получении списка комнат:"
           (.error ("Ошибка HTTP! Статус: " ++ toString r.status)),
         .alert alertMessage] } := by
    simp [fetchRooms, fetchRoomsTry, h, World.record]
  refine ⟨heq, ?_, ?_, ?_⟩
  · rw [heq]; rfl
  · rw [heq]
    simp [Completion.world, alertCount_append, alertCount, Event.isAlert]
  · rw [heq]
    simp [Completion.world, jsonCount_append, jsonCount, Event.isJson]

/-- A response with status 500 received while the rooms `Lobby`, `VIP` are held. -/
theorem fetchRooms_non_ok_witness :
    (fetchRooms (.resolved serverError) lobbyWorld).world.rooms = lobbyWorld.rooms ∧
    alertCount (fetchRooms (.resolved serverError) lobbyWorld).world.trace = 1 ∧
    jsonCount (fetchRooms (.resolved serverError) lobbyWorld).world.trace = 0 :=
  ⟨(fetchRooms_non_ok lobbyWorld serverError rfl).2.1,
   (fetchRooms_non_ok lobbyWorld serverError rfl).2.2.1,
   (fetchRooms_non_ok lobbyWorld serverError rfl).2.2.2⟩

/-- C4: for every prior state and every successful response whose body parses to
an object, `fetchRooms` ends normally with `app.rooms` equal to the `rooms`
property of that object (whatever `app.rooms` held before), shows no alert, and
issues exactly one request, to `/api/rooms`, followed by one read of the body. -/
theorem fetchRooms_success (w : World) (r : Response) (fields : List (String × JSVal))
    (hok : r.ok = true) (hbody : r.body = .ok (.obj fields)) :
    fetchRooms (.resolved r) w =
      .normal { w with rooms := lookup "rooms" fields,
                       trace := w.trace ++ [.fetch "/api/rooms", .json] } ∧
    alertCount (fetchRooms (.resolved r) w).world.trace = alertCount w.trace ∧
    fetchCount (fetchRooms (.resolved r) w).world.trace = fetchCount w.trace + 1 := by
  have heq : fetchRooms (.resolved r) w =
      .normal { w with rooms := lookup "rooms" fields,
                       trace := w.trace ++ [.fetch "/api/rooms", .json] } := by
    simp [fetchRooms, fetchRoomsTry, hok, hbody, World.record, getProp]
  refine ⟨heq, ?_, ?_⟩
  · rw [heq]
    simp [Completion.world, alertCount_append, alertCount, Event.isAlert]
  · rw [heq]
    simp [Completion.world, fetchCount_append, fetchCount, Event.isFetch]

/-- The rooms `Lobby`, `VIP` received while no room is held. -/
theorem fetchRooms_success_witness :
    fetchRooms (.resolved lobbyResponse) noRoomWorld =
      .normal { noRoomWorld with
        rooms := .arr [roomNamed "Lobby", roomNamed "VIP"],
        trace := noRoomWorld.trace ++ [.fetch "/api/rooms", .json] } :=
  (fetchRooms_success noRoomWorld lobbyResponse
    [("rooms", .arr [roomNamed "Lobby", roomNamed "VIP"])] rfl rfl).1

theorem fetchRooms_failure (net : FetchResult) (w : World)
    (h : outcomeKind net ≠ .success ∨ bodyIsNullish net = true) :
    ∃ evs, fetchRooms net w = .normal { w with trace := w.trace ++ evs } ∧
      alertCount evs = 1 ∧ errorLogCount evs = 1 := by
  cases net with
  | rejected reason =>
    refine ⟨[.fetch "/api/rooms", .consoleError "Ошибка при получении списка комнат:" reason,
      .alert alertMessage], ?_, rfl, rfl⟩
    simp [fetchRooms, fetchRoomsTry, World.record]
  | resolved r =>
    by_cases hok : r.ok = true
    · cases hbody : r.body with
      | error e =>
        refine ⟨[.fetch "/api/rooms", .json,
          .consoleError "Ошибка при получении списка комнат:" e, .alert alertMessage], ?_, rfl, rfl⟩
        simp [fetchRooms, fetchRoomsTry, World.record, hok, hbody]
      | ok data =>
        have hnull : isNullish data = true := by
          rcases h with h | h
          · simp [outcomeKind, hok, hbody] at h
          · simpa [bodyIsNullish, hbody] using h
        obtain ⟨e, he⟩ := getProp_of_nullish data "rooms" hnull
        refine ⟨[.fetch "/api/rooms", .json,
          .consoleError "Ошибка при получении списка комнат:" e, .alert alertMessage], ?_, rfl, rfl⟩
        simp [fetchRooms, fetchRoomsTry, World.record, hok, hbody, he]
    · have hok' : r.ok = false := by simpa using hok
      refine ⟨[.fetch "/api/rooms",
        .consoleError "Ошибка при получении списка комнат:"
          (.error ("Ошибка HTTP! Статус: " ++ toString r.status)),
        .alert alertMessage], ?_, rfl, rfl⟩
      simp [fetchRooms, fetchRoomsTry, World.record, hok']

theorem fetchRooms_good (net : FetchResult) (w : World)
    (h : outcomeKind net = .success) (hnn : bodyIsNullish net = false) :
    ∃ rooms, fetchRooms net w =
      .normal { w with rooms := rooms, trace := w.trace ++ [.fetch "/api/rooms", .json] } := by
  cases net with
  | rejected reason => simp [outcomeKind] at h
  | resolved r =>
    by_cases hok : r.ok = true
    · cases hbody : r.body with
      | error e => simp [outcomeKind, hok, hbody] at h
      | ok data =>
        have hnull : isNullish data = false := by simpa [bodyIsNullish, hbody] using hnn
        obtain ⟨x, hx⟩ := getProp_of_not_nullish data "rooms" hnull
        exact ⟨x, by simp [fetchRooms, fetchRoomsTry, World.record, hok, hbody, hx]⟩
    · have hok' : r.ok = false := by simpa using hok
      simp [outcomeKind, hok'] at h

/-- C5, as the code has it: whatever the network call yields, `fetchRooms` ends
normally.  When the request is rejected, the status is not a success status or
the body fails to parse, exactly one alert is shown and one error is logged.
When the response is successful and its body parses, none is, provided the
parsed body is neither `null` nor `undefined`; a body that parses to `null`
makes the read of its `rooms` property raise inside the `try` block, and is
reported like the other failures, with one alert and one logged error. -/
theorem fetchRooms_always_completes (net : FetchResult) (w : World) :
    ∃ w', fetchRooms net w = .normal w' ∧
      (outcomeKind net ≠ .success →
        alertCount w'.trace = alertCount w.trace + 1 ∧
        errorLogCount w'.trace = errorLogCount w.trace + 1) ∧
      (outcomeKind net = .success → bodyIsNullish net = false →
        alertCount w'.trace = alertCount w.trace ∧
        errorLogCount w'.trace = errorLogCount w.trace) ∧
      (outcomeKind net = .success → bodyIsNullish net = true →
        alertCount w'.trace = alertCount w.trace + 1 ∧
        errorLogCount w'.trace = errorLogCount w.trace + 1) := by
  by_cases hfail : outcomeKind net ≠ .success ∨ bodyIsNullish net = true
  · obtain ⟨evs, heq, ha, he⟩ := fetchRooms_failure net w hfail
    refine ⟨_, heq, ?_, ?_, ?_⟩
    · intro _
      simp [alertCount_append, errorLogCount_append, ha, he]
    · intro hs hnn
      rcases hfail with h | h
      · exact absurd hs h
      · rw [h] at hnn; cases hnn
    · intro _ _
      simp [alertCount_append, errorLogCount_append, ha, he]
  · have hs : outcomeKind net = .success := by
      by_contra hc
      exact hfail (Or.inl hc)
    have hnn : bodyIsNullish net = false := by
      cases hb : bodyIsNullish net with
      | false => rfl
      | true => exact absurd (Or.inr hb) hfail
    obtain ⟨rooms, heq⟩ := fetchRooms_good net w hs hnn
    refine ⟨_, heq, ?_, ?_, ?_⟩
    · intro h; exact absurd hs h
    · intro _ _
      simp [alertCount_append, errorLogCount_append, alertCount, errorLogCount,
        Event.isAlert, Event.isConsoleError]
    · intro _ hb
      rw [hb] at hnn; cases hnn

/-- A response with status 500, the rooms `Lobby`, `VIP`, and a body `null`,
each received in the initial state. -/
theorem fetchRooms_always_completes_witness :
    (∃ w', fetchRooms (.resolved serverError) (initialWorld none) = .normal w' ∧
      alertCount w'.trace = 1 ∧ errorLogCount w'.trace = 1) ∧
    (∃ w', fetchRooms (.resolved lobbyResponse) (initialWorld none) = .normal w' ∧
      alertCount w'.trace = 0 ∧ errorLogCount w'.trace = 0) ∧
    (∃ w', fetchRooms (.resolved nullResponse) (initialWorld none) = .normal w' ∧
      alertCount w'.trace = 1 ∧ errorLogCount w'.trace = 1) := by
  refine ⟨?_, ?_, ?_⟩
  · obtain ⟨w', h, h1, _, _⟩ :=
      fetchRooms_always_completes (.resolved serverError) (initialWorld none)
    exact ⟨w', h, h1 (by decide)⟩
  · obtain ⟨w', h, _, h2, _⟩ :=
      fetchRooms_always_completes (.resolved lobbyResponse) (initialWorld none)
    exact ⟨w', h, h2 rfl rfl⟩
  · obtain ⟨w', h, _, _, h3⟩ :=
      fetchRooms_always_completes (.resolved nullResponse) (initialWorld none)
    exact ⟨w', h, h3 rfl rfl⟩

/-- C5 as stated fails: a response with status 200 whose body parses to `null`
is a success of the network call, and yet `fetchRooms`, started with no alert
shown and no error logged, ends with one alert shown and one error logged. -/
theorem fetchRooms_null_body_alerts :
    outcomeKind (.resolved nullResponse) = .success ∧
    alertCount (initialWorld none).trace = 0 ∧
    errorLogCount (initialWorld none).trace = 0 ∧
    alertCount (fetchRooms (.resolved nullResponse) (initialWorld none)).world.trace = 1 ∧
    errorLogCount (fetchRooms (.resolved nullResponse) (initialWorld none)).world.trace = 1 :=
  ⟨rfl, rfl, rfl, rfl, rfl⟩

/-! ## The view as a function of the rooms -/

theorem forEachRoom_eq (items : List JSVal) (d : Element) :
    forEachRoom items d =
      ({ d with children :=
          d.children ++ (forEachRoom items (createElement "div")).1.children },
        (forEachRoom items (createElement "div")).2) := by
  induction items generalizing d with
  | nil => simp [forEachRoom, createElement]
  | cons r rest ih =>
    cases hname : getProp r "name" with
    | error e =>
      simp [forEachRoom, appendRoom_error r e _ hname, createElement]
    | ok n =>
      rw [forEachRoom, appendRoom_ok r n d hname, forEachRoom,
        appendRoom_ok r n (createElement "div") hname]
      simp only []
      rw [ih (d.appendChild (roomDivOf n)),
        ih ((createElement "div").appendChild (roomDivOf n))]
      simp [Element.appendChild, createElement]

theorem renderRooms_eq (w : World) (d : Element) (hdiv : w.roomsDiv = some d) :
    renderRooms w = finishRender w d (renderedNodes w.rooms) := by
  unfold renderRooms renderedNodes
  rw [hdiv]
  simp only []
  cases hlen : getProp w.rooms "length" with
  | error e => simp [finishRender, Element.clearInnerHTML]
  | ok len =>
    by_cases hz : isZero len = true
    · simp [hz, finishRender, Element.clearInnerHTML, Element.setTextContent, emptyMessage]
    · have hz' : isZero len = false := by simpa using hz
      simp only [hz', Bool.false_eq_true, if_false]
      cases hrooms : w.rooms with
      | arr items =>
        simp only []
        rw [forEachRoom_eq items d.clearInnerHTML]
        cases herr : (forEachRoom items (createElement "div")).2 with
        | none => simp [finishRender, Element.clearInnerHTML, herr, hrooms]
        | some e => simp [finishRender, Element.clearInnerHTML, herr, hrooms]
      | undefined => simp [finishRender, Element.clearInnerHTML, hrooms]
      | null => simp [finishRender, Element.clearInnerHTML, hrooms]
      | bool b => simp [finishRender, Element.clearInnerHTML, hrooms]
      | num n => simp [finishRender, Element.clearInnerHTML, hrooms]
      | str t => simp [finishRender, Element.clearInnerHTML, hrooms]
      | obj fields => simp [finishRender, Element.clearInnerHTML, hrooms]

theorem finishRender_world (w : World) (d : Element) (r : List Node × Option JSError) :
    (finishRender w d r).world = { w with roomsDiv := some { d with children := r.1 } } := by
  unfold finishRender
  cases r.2 <;> rfl

theorem renderRooms_world_none (w : World) (hdiv : w.roomsDiv = none) :
    (renderRooms w).world = w := by
  simp [renderRooms, hdiv, Completion.world]

theorem renderRooms_userId (w : World) : (renderRooms w).world.userId = w.userId := by
  cases hdiv : w.roomsDiv with
  | none => rw [renderRooms_world_none w hdiv]
  | some d => rw [renderRooms_eq w d hdiv, finishRender_world]

theorem fetchRooms_userId (net : FetchResult) (w : World) :
    (fetchRooms net w).world.userId = w.userId := by
  by_cases hfail : outcomeKind net ≠ .success ∨ bodyIsNullish net = true
  · obtain ⟨evs, heq, _, _⟩ := fetchRooms_failure net w hfail
    rw [heq]; rfl
  · have hs : outcomeKind net = .success := by
      by_contra hc
      exact hfail (Or.inl hc)
    have hnn : bodyIsNullish net = false := by
      cases hb : bodyIsNullish net with
      | false => rfl
      | true => exact absurd (Or.inr hb) hfail
    obtain ⟨rooms, heq⟩ := fetchRooms_good net w hs hnn
    rw [heq]; rfl

/-! ## Initialisation -/

theorem getProp_of_truthy (v : JSVal) (key : String) (h : truthy v = true) :
    ∃ x, getProp v key = .ok x := by
  cases v <;> simp [getProp, truthy] at h ⊢

theorem resolveUserId_has_user (host user id : JSVal) (w : World)
    (hhost : truthy host = true) (huser : getProp host "user" = .ok user)
    (htruthy : truthy user = true) (hid : getProp user "id" = .ok id) :
    resolveUserId host w =
      .normal { w with userId := id,
                       trace := w.trace ++ [.consoleLog "ID пользователя:" id] } := by
  simp [resolveUserId, hostUser, hhost, huser, htruthy, hid, World.record]

theorem resolveUserId_no_user (host : JSVal) (w : World)
    (h : truthy host = false ∨ ∃ user, getProp host "user" = .ok user ∧ truthy user = false) :
    resolveUserId host w =
      .normal { w with userId := .str "unknown",
                       trace := w.trace ++ [.consoleWarn
        "ID пользователя недоступен. Проверьте настройки Telegram Web App SDK."] } := by
  by_cases hhost : truthy host = true
  · rcases h with h | ⟨user, huser, hfalsy⟩
    · rw [hhost] at h; cases h
    · simp [resolveUserId, hostUser, hhost, huser, hfalsy, World.record]
  · have hhost' : truthy host = false := by simpa using hhost
    simp [resolveUserId, hostUser, hhost', World.record]

theorem resolveUserId_normal (host : JSVal) (w : World) :
    ∃ id ev, resolveUserId host w = .normal { w with userId := id, trace := w.trace ++ [ev] } ∧
      ev.isAlert = false := by
  by_cases hhost : truthy host = true
  · obtain ⟨user, huser⟩ := getProp_of_truthy host "user" hhost
    by_cases htruthy : truthy user = true
    · obtain ⟨id, hid⟩ := getProp_of_truthy user "id" htruthy
      exact ⟨id, _, resolveUserId_has_user host user id w hhost huser htruthy hid, rfl⟩
    · have hfalsy : truthy user = false := by simpa using htruthy
      exact ⟨_, _, resolveUserId_no_user host w (Or.inr ⟨user, huser, hfalsy⟩), rfl⟩
  · have hhost' : truthy host = false := by simpa using hhost
    exact ⟨_, _, resolveUserId_no_user host w (Or.inl hhost'), rfl⟩

theorem fetchRooms_normal (net : FetchResult) (w : World) :
    ∃ w1, fetchRooms net w = .normal w1 := by
  by_cases hfail : outcomeKind net ≠ .success ∨ bodyIsNullish net = true
  · obtain ⟨evs, heq, _, _⟩ := fetchRooms_failure net w hfail
    exact ⟨_, heq⟩
  · have hs : outcomeKind net = .success := by
      by_contra hc
      exact hfail (Or.inl hc)
    have hnn : bodyIsNullish net = false := by
      cases hb : bodyIsNullish net with
      | false => rfl
      | true => exact absurd (Or.inr hb) hfail
    obtain ⟨rooms, heq⟩ := fetchRooms_good net w hs hnn
    exact ⟨_, heq⟩

theorem init_eq (host : JSVal) (net : FetchResult) (w : World) :
    init host net w = renderRooms (fetchRooms net (resolveUserId host w).world).world := by
  obtain ⟨id, ev, hres, _⟩ := resolveUserId_normal host w
  obtain ⟨w1, hfetch⟩ := fetchRooms_normal net { w with userId := id, trace := w.trace ++ [ev] }
  simp [init, hres, hfetch, Completion.world]

theorem userId_after_init (host : JSVal) (net : FetchResult) (w : World) :
    (init host net w).world.userId = (resolveUserId host w).world.userId := by
  rw [init_eq, renderRooms_userId, fetchRooms_userId]

/-- C6: for every host context and every prior content of the container, when
the script runs from its initial state and the fetch fails (rejected request,
non-success status, body that fails to parse, or body that parses to `null`),
`fetchRooms` ends normally, `renderRooms` then runs on the state it left, the
whole run ends normally, exactly one alert has been shown, and the container
has the empty-state message as its text and no child element. -/
theorem main_fetch_failure (host : JSVal) (net : FetchResult) (d : Element)
    (hfail : outcomeKind net ≠ .success ∨ bodyIsNullish net = true) :
    ∃ w1 w2 d',
      fetchRooms net (resolveUserId host ((initialWorld (some d)).record .ready)).world
        = .normal w1 ∧
      main host net (some d) = renderRooms w1 ∧
      main host net (some d) = .normal w2 ∧
      alertCount w2.trace = 1 ∧
      w2.roomsDiv = some d' ∧
      d'.textContent = "Нет доступных комнат." ∧
      d'.childElementCount = 0 ∧
      d'.children = [.text "Нет доступных комнат."] := by
  obtain ⟨id, ev, hres, hev⟩ := resolveUserId_normal host ((initialWorld (some d)).record .ready)
  obtain ⟨evs, hfetch, halert, _⟩ := fetchRooms_failure net
    { (initialWorld (some d)).record .ready with
      userId := id, trace := ((initialWorld (some d)).record .ready).trace ++ [ev] } hfail
  have hnodes : renderedNodes (.arr []) = ([.text emptyMessage], none) := by
    simp [renderedNodes, getProp, isZero]
  have hmain : main host net (some d) = renderRooms
      { rooms := .arr [], userId := id, roomsDiv := some d,
        trace := [.ready] ++ [ev] ++ evs } := by
    rw [main, init_eq, hres]
    simp only [Completion.world]
    rw [hfetch]
    simp [Completion.world, initialWorld, World.record]
  refine ⟨{ rooms := .arr [], userId := id, roomsDiv := some d,
            trace := [.ready] ++ [ev] ++ evs },
          { rooms := .arr [], userId := id,
            roomsDiv := some { d with children := [.text emptyMessage] },
            trace := [.ready] ++ [ev] ++ evs },
          { d with children := [.text emptyMessage] }, ?_, hmain, ?_, ?_, rfl, ?_, ?_, ?_⟩
  · rw [hres]
    simp only [Completion.world]
    rw [hfetch]
    simp [initialWorld, World.record]
  · rw [hmain, renderRooms_eq _ d rfl]
    simp only [hnodes, finishRender]
  · rw [alertCount_append, alertCount_append, halert]
    cases ev <;> simp_all [alertCount, Event.isAlert]
  · simp [Element.textContent, emptyMessage, textOfNodes, Node.textContent]
  · simp [Element.childElementCount, Element.childElements, Node.isElement]
  · simp [emptyMessage]

/-- A host context without user and a response with status 500, over a stale
container. -/
theorem main_fetch_failure_witness :
    ∃ w2 d', main hostNoUser (.resolved serverError) (some staleDiv) = .normal w2 ∧
      alertCount w2.trace = 1 ∧
      w2.roomsDiv = some d' ∧
      d'.textContent = "Нет доступных комнат." ∧
      d'.childElementCount = 0 := by
  obtain ⟨_, w2, d', _, _, h, ha, hd, ht, hc, _⟩ :=
    main_fetch_failure hostNoUser (.resolved serverError) staleDiv (Or.inl (by decide))
  exact ⟨w2, d', h, ha, hd, ht, hc⟩

/-- C7: after `init`, for every host context, every result of the network call and
every prior state, `app.userId` is the value read from the `id` property of
the user of the host context when the host context and its user are present
(truthy), and is the string `unknown` when the host context is `undefined` or
`null`, when it has no `user` property, and more generally when the host
context or its user is falsy; `fetchRooms` and `renderRooms` leave
`app.userId` as it is. -/
theorem init_userId (host : JSVal) (net : FetchResult) (w : World) :
    (∀ user id, truthy host = true → getProp host "user" = .ok user → truthy user = true →
      getProp user "id" = .ok id → (init host net w).world.userId = id) ∧
    (host = .undefined ∨ host = .null → (init host net w).world.userId = .str "unknown") ∧
    (getProp host "user" = .ok .undefined →
      (init host net w).world.userId = .str "unknown") ∧
    ((truthy host = false ∨ ∃ user, getProp host "user" = .ok user ∧ truthy user = false) →
      (init host net w).world.userId = .str "unknown") ∧
    (∀ net' w', (fetchRooms net' w').world.userId = w'.userId) ∧
    (∀ w', (renderRooms w').world.userId = w'.userId) := by
  have hno : (truthy host = false ∨
      ∃ user, getProp host "user" = .ok user ∧ truthy user = false) →
      (init host net w).world.userId = .str "unknown" := by
    intro h
    rw [userId_after_init, resolveUserId_no_user host w h]
    rfl
  refine ⟨?_, ?_, ?_, hno, fetchRooms_userId, renderRooms_userId⟩
  · intro user id hhost huser htruthy hid
    rw [userId_after_init, resolveUserId_has_user host user id w hhost huser htruthy hid]
    rfl
  · intro h
    apply hno
    rcases h with rfl | rfl <;> exact Or.inl rfl
  · intro h
    exact hno (Or.inr ⟨.undefined, h, rfl⟩)

/-- The user `12345` with the rooms `Lobby`, `VIP`, and a host context without
user with a response of status 500. -/
theorem init_userId_witness :
    (main hostWithUser (.resolved lobbyResponse) (some staleDiv)).world.userId = .num 12345 ∧
    (main hostNoUser (.resolved serverError) (some staleDiv)).world.userId = .str "unknown" ∧
    (main .undefined (.resolved serverError) (some staleDiv)).world.userId = .str "unknown" :=
  ⟨(init_userId hostWithUser (.resolved lobbyResponse)
      ((initialWorld (some staleDiv)).record .ready)).1
      (.obj [("id", .num 12345)]) (.num 12345) rfl rfl rfl rfl,
   (init_userId hostNoUser (.resolved serverError)
      ((initialWorld (some staleDiv)).record .ready)).2.2.1 rfl,
   (init_userId .undefined (.resolved serverError)
      ((initialWorld (some staleDiv)).record .ready)).2.1 (Or.inl rfl)⟩

/-- C8: `renderRooms` is idempotent: for every value of `app.rooms` and every prior
content of the container, a second call of `renderRooms` on the state left by
a first one ends the same way in the same state; in particular the container
is the same, children, order, text and classes included. -/
theorem renderRooms_idempotent (w : World) :
    renderRooms (renderRooms w).world = renderRooms w ∧
    (renderRooms (renderRooms w).world).world.roomsDiv = (renderRooms w).world.roomsDiv := by
  have h : renderRooms (renderRooms w).world = renderRooms w := by
    cases hdiv : w.roomsDiv with
    | none => rw [renderRooms_world_none w hdiv]
    | some d =>
      rw [renderRooms_eq w d hdiv, finishRender_world,
        renderRooms_eq _ { d with children := (renderedNodes w.rooms).1 } rfl]
      simp only [finishRender]
  exact ⟨h, by rw [h]⟩

/-- C9: the container after `renderRooms` is determined by `app.rooms`: for two
states with the same value of `app.rooms` and any two prior contents of the
container, `renderRooms` ends the same way and leaves the same children in the
container, so that nothing of the prior children remains. -/
theorem renderRooms_view_of_rooms (w₁ w₂ : World) (d₁ d₂ : Element)
    (hrooms : w₁.rooms = w₂.rooms)
    (h₁ : w₁.roomsDiv = some d₁) (h₂ : w₂.roomsDiv = some d₂) :
    ∃ cs,
      (renderRooms w₁).world.roomsDiv = some { d₁ with children := cs } ∧
      (renderRooms w₂).world.roomsDiv = some { d₂ with children := cs } ∧
      (renderRooms w₁).isNormal = (renderRooms w₂).isNormal := by
  refine ⟨(renderedNodes w₂.rooms).1, ?_, ?_, ?_⟩
  · rw [renderRooms_eq w₁ d₁ h₁, finishRender_world, hrooms]
  · rw [renderRooms_eq w₂ d₂ h₂, finishRender_world]
  · rw [renderRooms_eq w₁ d₁ h₁, renderRooms_eq w₂ d₂ h₂, hrooms]
    unfold finishRender
    cases (renderedNodes w₂.rooms).2 <;> rfl

/-- The rooms `Lobby`, `VIP` rendered over a stale container and over a container
showing the empty-state message. -/
theorem renderRooms_view_of_rooms_witness :
    ∃ cs,
      (renderRooms lobbyWorld).world.roomsDiv = some { staleDiv with children := cs } ∧
      (renderRooms { lobbyWorld with
          roomsDiv := some { staleDiv with children := [.text emptyMessage] } }).world.roomsDiv
        = some { staleDiv with children := cs } ∧
      (renderRooms lobbyWorld).isNormal =
        (renderRooms { lobbyWorld with
          roomsDiv := some { staleDiv with children := [.text emptyMessage] } }).isNormal :=
  renderRooms_view_of_rooms lobbyWorld
    { lobbyWorld with roomsDiv := some { staleDiv with children := [.text emptyMessage] } }
    staleDiv { staleDiv with children := [.text emptyMessage] } rfl rfl rfl

theorem lookup_absent (key : String) (fields : List (String × JSVal))
    (h : ∀ p ∈ fields, p.1 ≠ key) : lookup key fields = .undefined := by
  induction fields with
  | nil => rfl
  | cons p rest ih =>
    obtain ⟨k, v⟩ := p
    have hk : k ≠ key := h (k, v) (List.mem_cons_self _ _)
    simp only [lookup, hk, if_false]
    exact ih (fun q hq => h q (List.mem_cons_of_mem _ hq))

/-- C10: for a successful response whose body parses to an object without a `rooms`
property, `fetchRooms` ends normally with `app.rooms` set to `undefined` and
shows no alert; the `renderRooms` call that `init` makes next empties the
container and then raises a `TypeError` on reading `length`, so that `init`
raises it in turn, with a container that has no child at all: neither the
empty-state message nor any element. -/
theorem init_missing_rooms_field (host : JSVal) (w : World) (d : Element) (r : Response)
    (fields : List (String × JSVal))
    (hok : r.ok = true) (hbody : r.body = .ok (.obj fields))
    (hno : ∀ p ∈ fields, p.1 ≠ "rooms") (hdiv : w.roomsDiv = some d) :
    (∀ w₀, fetchRooms (.resolved r) w₀ =
      .normal { w₀ with rooms := .undefined,
                        trace := w₀.trace ++ [.fetch "/api/rooms", .json] }) ∧
    ∃ w', init host (.resolved r) w =
        .thrown w' (.typeError "Cannot read properties of undefined (reading length)") ∧
      w'.rooms = .undefined ∧
      alertCount w'.trace = alertCount w.trace ∧
      w'.roomsDiv = some { d with children := [] } ∧
      ({ d with children := [] } : Element).childElementCount = 0 ∧
      ({ d with children := [] } : Element).textContent = "" ∧
      ({ d with children := [] } : Element).textContent ≠ "Нет доступных комнат." := by
  have hfetch : ∀ w₀, fetchRooms (.resolved r) w₀ =
      .normal { w₀ with rooms := .undefined,
                        trace := w₀.trace ++ [.fetch "/api/rooms", .json] } := by
    intro w₀
    simp [fetchRooms, fetchRoomsTry, hok, hbody, World.record, getProp,
      lookup_absent "rooms" fields hno]
  obtain ⟨id, ev, hres, hev⟩ := resolveUserId_normal host w
  refine ⟨hfetch,
    { rooms := .undefined, userId := id, roomsDiv := some { d with children := [] },
      trace := w.trace ++ [ev] ++ [.fetch "/api/rooms", .json] },
    ?_, rfl, ?_, rfl, rfl, rfl, ?_⟩
  · rw [init_eq, hres]
    simp only [Completion.world]
    rw [hfetch]
    simp only [Completion.world]
    simp [renderRooms, hdiv, getProp, Element.clearInnerHTML]
  · rw [alertCount_append, alertCount_append]
    cases ev <;> simp_all [alertCount, Event.isAlert]
  · simp [Element.textContent, textOfNodes]

/-- A successful response without `rooms` property, over a stale container. -/
theorem init_missing_rooms_field_witness :
    ∃ w', main hostWithUser (.resolved noRoomsFieldResponse) (some staleDiv) =
        .thrown w' (.typeError "Cannot read properties of undefined (reading length)") ∧
      w'.rooms = .undefined ∧
      alertCount w'.trace = 0 ∧
      w'.roomsDiv = some { staleDiv with children := [] } := by
  obtain ⟨w', h, hr, ha, hd, _⟩ :=
    (init_missing_rooms_field hostWithUser ((initialWorld (some staleDiv)).record .ready)
      staleDiv noRoomsFieldResponse [("ok", .bool true)] rfl rfl (by simp) rfl).2
  exact ⟨w', h, hr, ha, hd⟩

end RoomListWidget
